import Mathlib

/-!
Verification of the `sae2` hex account/instruction decoder
(`src/rust_decoder/src/main.rs`).

The Rust program is shallowly embedded as follows.

* Rust `&str` values are modelled as `List Char`; where the source indexes the
  string by UTF-8 bytes (`hex_to_bytes` slices `&hex[i..i+2]`), the character
  list is first encoded with `utf8` and the slicing is modelled on the byte
  list, including the panic that Rust raises when a slice boundary falls
  inside a multi-byte character.
* `serde_json::Value` is modelled by the mutual inductives `Json`/`JFields`;
  `Value::get(&str)` on an object is a key lookup that returns `some` even
  when the stored value is `Json.null`, exactly as in serde.
* The external crates (`carbon_crafting_decoder`'s `decode_account` and
  `serde_json`'s parser) are not part of this repository's sources; the
  functions that call them are parameterised by those collaborators
  (`dec : List Nat → Option CraftingAccount`, mirroring the trait method's
  `Option<DecodedAccount<CraftingAccount>>` result type visible in the
  source, and `parseJson : List Char → Option Json` for `serde_json::from_str`).
  A sample registry modelled from the spec is supplied for concrete runs.
* A Rust panic is an explicit outcome (`HexResult.crash`, `RunResult.crash`),
  never an undefined behaviour of the model.
-/

mutual

/-- Model of `serde_json::Value` (arrays are not needed by the embedding;
numbers are restricted to integers, which is all the embedding constructs). -/
inductive Json where
  | null
  | bool (b : Bool)
  | num (n : Int)
  | str (s : String)
  | obj (fields : JFields)
deriving DecidableEq, Repr

/-- The field list of a JSON object (`String` keys in insertion order). -/
inductive JFields where
  | nil
  | cons (key : String) (value : Json) (tail : JFields)
deriving DecidableEq, Repr

end

/-- Build a `JFields` list from a Lean list of key/value pairs. -/
def JFields.ofList : List (String × Json) → JFields
  | [] => .nil
  | (k, v) :: t => .cons k v (JFields.ofList t)

/-- Build a JSON object from a list of key/value pairs (models the `json!`
macro's object form, keys in source order). -/
def Json.mkObj (l : List (String × Json)) : Json := .obj (JFields.ofList l)

/-- Key lookup in an object's field list. -/
def JFields.get : JFields → String → Option Json
  | .nil, _ => Option.none
  | .cons k v t, key => if k = key then Option.some v else JFields.get t key

/-- Model of `serde_json::Value::get(&str)`: on an object, look the key up
(returning `some` even when the stored value is `Json.null`); on any other
value, `none`. -/
def Json.get : Json → String → Option Json
  | .obj fs, key => fs.get key
  | _, _ => Option.none

/-- Outcome of `hex_to_bytes`: `crash` models a Rust panic (string slicing at
a non-character boundary), `invalid` models `None`, `ok` models `Some(vec)`.
Bytes are `Nat` values below 256. -/
inductive HexResult where
  | crash
  | invalid
  | ok (bytes : List Nat)
deriving DecidableEq, Repr

/-- Model of Rust `char::is_whitespace` (the Unicode `White_Space` property),
used by `str::trim`. -/
def rustIsWhitespace (c : Char) : Bool :=
  let n := c.toNat
  (decide (9 ≤ n) && decide (n ≤ 13)) || decide (n = 32) || decide (n = 133) ||
    decide (n = 160) || decide (n = 5760) ||
    (decide (8192 ≤ n) && decide (n ≤ 8202)) || decide (n = 8232) ||
    decide (n = 8233) || decide (n = 8239) || decide (n = 8287) || decide (n = 12288)

/-- Model of Rust `str::trim`: drop `White_Space` characters from both ends. -/
def rustTrim (s : List Char) : List Char :=
  ((s.dropWhile rustIsWhitespace).reverse.dropWhile rustIsWhitespace).reverse

/-- Model of `if hex.starts_with("0x") { hex = &hex[2..]; }`: strip one
leading lowercase `0x` marker (case-sensitive, applied after trimming). -/
def stripHex0x : List Char → List Char
  | c0 :: c1 :: rest => if c0 = '0' ∧ c1 = 'x' then rest else c0 :: c1 :: rest
  | s => s

/-- UTF-8 encoding of one character (1 to 4 bytes). -/
def utf8Char (c : Char) : List Nat :=
  let n := c.toNat
  if n < 128 then [n]
  else if n < 2048 then [192 + n / 64, 128 + n % 64]
  else if n < 65536 then [224 + n / 4096, 128 + n / 64 % 64, 128 + n % 64]
  else [240 + n / 262144, 128 + n / 4096 % 64, 128 + n / 64 % 64, 128 + n % 64]

/-- UTF-8 encoding of a character list; models how Rust's `&str` stores text
as bytes, which is what `hex.len()` and `&hex[i..i+2]` operate on. -/
def utf8 : List Char → List Nat
  | [] => []
  | c :: cs => utf8Char c ++ utf8 cs

/-- Value of one byte as a base-16 digit, per Rust `char::to_digit(16)`:
`0-9`, `a-f`, `A-F`. -/
def hexDigitVal (b : Nat) : Option Nat :=
  if 48 ≤ b ∧ b ≤ 57 then Option.some (b - 48)
  else if 97 ≤ b ∧ b ≤ 102 then Option.some (b - 87)
  else if 65 ≤ b ∧ b ≤ 70 then Option.some (b - 55)
  else Option.none

/-- Model of `u8::from_str_radix(s, 16)` on a two-byte slice: an optional
leading `+` sign (`-` is rejected for an unsigned target, and `+` alone was
already excluded because the slice has two bytes), then base-16 digits. -/
def fromStrRadix2 (b1 b2 : Nat) : Option Nat :=
  if b1 = 43 then hexDigitVal b2
  else
    match hexDigitVal b1, hexDigitVal b2 with
    | Option.some d1, Option.some d2 => Option.some (16 * d1 + d2)
    | _, _ => Option.none

/-- A byte at which a Rust string slice may start or end: any byte that is
not a UTF-8 continuation byte. -/
def isBoundaryByte (b : Nat) : Bool := decide (b < 128) || decide (192 ≤ b)

/-- Whether a slice may end right before this tail (at the end of the buffer,
or at a character boundary). -/
def pairEndOk : List Nat → Bool
  | [] => true
  | b :: _ => isBoundaryByte b

/-- Prepend a parsed byte to the result of decoding the remaining pairs,
keeping a failure outcome unchanged. -/
def HexResult.consByte (v : Nat) : HexResult → HexResult
  | .ok vs => .ok (v :: vs)
  | r => r

/-- The `(0..hex.len()).step_by(2).map(...).collect::<Option<Vec<u8>>>()`
loop of `hex_to_bytes`, two bytes at a time. Per pair, Rust first takes the
slice `&hex[i..i+2]` — which panics when either end is not a character
boundary — and then parses it; `collect` stops at the first `None`, so later
pairs are not sliced after a parse failure. The singleton case cannot arise
(the caller has checked the length is even). -/
def pairLoop : List Nat → HexResult
  | [] => .ok []
  | [_] => .invalid
  | b1 :: b2 :: rest =>
    if isBoundaryByte b1 && pairEndOk rest then
      match fromStrRadix2 b1 b2 with
      | Option.some v => (pairLoop rest).consByte v
      | Option.none => .invalid
    else .crash

/-- Model of `hex_to_bytes` from `main.rs`: trim, strip an optional `0x`,
reject an odd byte length, then parse byte pairs. -/
def hex_to_bytes (s : List Char) : HexResult :=
  let bs := utf8 (stripHex0x (rustTrim s))
  if bs.length % 2 ≠ 0 then .invalid else pairLoop bs

/-- Model of `extract_discriminator` from `main.rs`: `None` for fewer than
8 bytes, otherwise a copy of the first 8 bytes. -/
def extract_discriminator (data : List Nat) : Option (List Nat) :=
  if data.length < 8 then Option.none else Option.some (data.take 8)

/-- The `CraftingAccount` enum of the external `carbon_crafting_decoder`
crate, as used by `main.rs`: six variants, each carrying a payload that
`main.rs` only ever passes whole to `json!` (modelled as its serialised
`Json` value). -/
inductive CraftingAccount where
  | craftableItem (v : Json)
  | craftingFacility (v : Json)
  | craftingProcess (v : Json)
  | domain (v : Json)
  | recipe (v : Json)
  | recipeCategory (v : Json)
deriving DecidableEq, Repr

/-- Model of `decode_crafting_account` from `main.rs`, parameterised by the
external decoder `dec` (the `CraftingDecoder::decode_account` trait method;
its result type in the source is `Option<DecodedAccount<CraftingAccount>>`,
so the embedding takes any function into `Option CraftingAccount`; the
`SolAccount` wrapper only forwards the data bytes). -/
def decode_crafting_account (dec : List Nat → Option CraftingAccount)
    (data : List Nat) : Json :=
  match dec data with
  | Option.some (.craftableItem i) =>
      Json.mkObj [("kind", Json.str "CraftableItem"), ("program", Json.str "Crafting"), ("value", i)]
  | Option.some (.craftingFacility f) =>
      Json.mkObj [("kind", Json.str "CraftingFacility"), ("program", Json.str "Crafting"), ("value", f)]
  | Option.some (.craftingProcess p) =>
      Json.mkObj [("kind", Json.str "CraftingProcess"), ("program", Json.str "Crafting"), ("value", p)]
  | Option.some (.domain dv) =>
      Json.mkObj [("kind", Json.str "Domain"), ("program", Json.str "Crafting"), ("value", dv)]
  | Option.some (.recipe r) =>
      Json.mkObj [("kind", Json.str "Recipe"), ("program", Json.str "Crafting"), ("value", r)]
  | Option.some (.recipeCategory rc) =>
      Json.mkObj [("kind", Json.str "RecipeCategory"), ("program", Json.str "Crafting"), ("value", rc)]
  | Option.none =>
      Json.mkObj [("decoded", Json.null), ("program", Json.str "Crafting")]

/-- The fallback value of `decode_sage_instruction`. -/
def sageFallbackEnvelope : Json :=
  Json.mkObj [("decoded", Json.null), ("program", Json.str "Unknown"),
    ("error", Json.str "Invalid instruction format")]

/-- Model of `decode_sage_instruction` from `main.rs`, parameterised by the
external JSON parser (`serde_json::from_str`). It consumes the original
input text: if that parses as JSON and carries a string-valued `programId`
field (`get("programId").and_then(|v| v.as_str())`), it returns the tagged
Sage envelope with the parsed object nested under `value`; otherwise the
fallback envelope. The unused `SageStarbasedDecoder` binding in the source
has no effect. -/
def decode_sage_instruction (parseJson : List Char → Option Json)
    (hex : List Char) : Json :=
  match parseJson hex with
  | Option.some instrObj =>
    match instrObj.get "programId" with
    | Option.some (Json.str pid) =>
        Json.mkObj [("kind", Json.str "SageInstruction"), ("program", Json.str "Sage-Starbased"),
          ("programId", Json.str pid), ("parsed", Json.bool true), ("value", instrObj)]
    | _ => sageFallbackEnvelope
  | Option.none => sageFallbackEnvelope

/-- Outcome of one process run of `main`: `usage` models
`std::process::exit(2)` after the usage message, `invalidHex` models
`std::process::exit(3)` after `Invalid hex input`, `crash` models an
uncaught panic (Rust aborts the process with code 101), and `output`
models printing the pretty JSON document and returning normally (exit 0). -/
inductive RunResult where
  | usage
  | invalidHex
  | crash
  | output (doc : Json)
deriving DecidableEq, Repr

/-- The process exit code of each outcome. -/
def RunResult.exitCode : RunResult → Nat
  | .usage => 2
  | .invalidHex => 3
  | .crash => 101
  | .output _ => 0

/-- The lines `main` prints to the error stream in each outcome (a panic
message is produced by the runtime, not by `main`; it is not modelled). -/
def RunResult.stderrLines : RunResult → List String
  | .usage => ["Usage: carbon_crafting_decoder <hex-data> [--instruction]",
      "  If --instruction is not provided, decodes as account data",
      "  If --instruction is provided, decodes as instruction data"]
  | .invalidHex => ["Invalid hex input"]
  | .crash => []
  | .output _ => []

/-- The document printed to standard output, when the run produced one. -/
def RunResult.stdoutDoc : RunResult → Option Json
  | .output doc => Option.some doc
  | _ => Option.none

/-- Model of `args.len() > 2 && args[2] == "--instruction"`. -/
def isInstructionArg (args : List (List Char)) : Bool :=
  decide (2 < args.length) && decide (args.getD 2 [] = "--instruction".toList)

/-- Model of `main` from `main.rs`, parameterised by the two external
collaborators and by the full argument vector (`args[0]` is the program
name, as with `env::args`): usage check, hex decoding (whose panic
propagates), then either the instruction path on the original text or the
account path on the decoded bytes, with the latter's
`get("decoded").is_some() || get("kind").is_some()` guard before the
`Unable to decode account` fallback. -/
def runMain (dec : List Nat → Option CraftingAccount)
    (parseJson : List Char → Option Json) (args : List (List Char)) : RunResult :=
  if args.length < 2 then .usage
  else
    let hex := args.getD 1 []
    match hex_to_bytes hex with
    | .crash => .crash
    | .invalid => .invalidHex
    | .ok data =>
      if isInstructionArg args then .output (decode_sage_instruction parseJson hex)
      else
        let craftingResult := decode_crafting_account dec data
        if (craftingResult.get "decoded").isSome || (craftingResult.get "kind").isSome then
          .output craftingResult
        else
          .output (Json.mkObj [("decoded", Json.null), ("error", Json.str "Unable to decode account")])

/-- Modelled from the spec: the external carbon account-decoder registry
(spec §3 VariantDescriptor, §4.3) whose concrete discriminator values and
layouts are not in this repository's sources — a variant tag, an 8-byte
discriminator key, and a fallible deserialisation routine for the bytes
after the discriminator. -/
structure VariantDescriptor where
  tag : String
  disc : List Nat
  deser : List Nat → Option CraftingAccount

/-- Modelled from the spec: the external `CraftingDecoder::decode_account`
(spec §4.3) — extract the discriminator (propagating insufficient length as
no-match), look it up in the registry (first registered wins), and run the
matched variant's deserialiser on the bytes from offset 8 onward. The trait
method's result type visible in `main.rs` is an `Option`, so a
deserialisation failure can only surface as `none` here. -/
def registryDecode (reg : List VariantDescriptor) (data : List Nat) :
    Option CraftingAccount :=
  match extract_discriminator data with
  | Option.none => Option.none
  | Option.some d =>
    match reg.find? (fun v => v.disc == d) with
    | Option.none => Option.none
    | Option.some v => v.deser (data.drop 8)

/-- Modelled from the spec: a sample deserialiser for one registered variant;
it fails on an empty payload (a payload too short for the variant's layout)
and otherwise produces a `CraftableItem`. -/
def sampleDeser (payload : List Nat) : Option CraftingAccount :=
  match payload with
  | [] => Option.none
  | b :: _ => Option.some (.craftableItem (Json.num (Int.ofNat b)))

/-- Modelled from the spec: a sample Crafting registry with one variant whose
discriminator is `[1,2,3,4,5,6,7,8]`. -/
def registryCrafting : List VariantDescriptor :=
  [⟨"CraftableItem", [1, 2, 3, 4, 5, 6, 7, 8], sampleDeser⟩]

/-- The sample registry packaged as the decoder argument of
`decode_crafting_account` / `runMain`. -/
def craftingDecSample : List Nat → Option CraftingAccount :=
  registryDecode registryCrafting

/-- The parsed form of `sageJsonText` (a JSON object with one string-valued
`programId` field). -/
def sageObjSample : Json := Json.mkObj [("programId", Json.str "Sage111")]

/-- The instruction-mode scenario input from the spec:
the JSON text `\x7b"programId":"Sage111"\x7d`. -/
def sageJsonText : List Char := "\x7b\"programId\":\"Sage111\"\x7d".toList

/-- A sample JSON parser standing in for `serde_json::from_str` during
concrete runs: it parses exactly the scenario text `sageJsonText`. -/
def parseJsonSample (s : List Char) : Option Json :=
  if s = sageJsonText then Option.some sageObjSample else Option.none

/-- The spec's description of the Byte Codec (§4.1), written from its words
to be compared with `hex_to_bytes`: the value of one character pair under
base-16 integer parsing. -/
def specPairVal (c1 c2 : Char) : Option Nat := fromStrRadix2 c1.toNat c2.toNat

/-- The spec's description of the Byte Codec (§4.1), pair part: every
consecutive pair of characters must parse as a base-16 byte value. -/
def pairBytes : List Char → Option (List Nat)
  | [] => Option.some []
  | [_] => Option.none
  | c1 :: c2 :: rest =>
    match specPairVal c1 c2, pairBytes rest with
    | Option.some v, Option.some vs => Option.some (v :: vs)
    | _, _ => Option.none

/-- The spec's description of the Byte Codec (§4.1), written from its words
to be compared with `hex_to_bytes`: trim boundary whitespace, strip an
optional `0x`, fail on an odd length, then parse the character pairs. -/
def hexToBytesSpec (s : List Char) : Option (List Nat) :=
  let t := stripHex0x (rustTrim s)
  if t.length % 2 = 1 then Option.none else pairBytes t

/-- View a spec-level Byte Codec outcome as a `HexResult` (the spec has no
panic outcome). -/
def HexResult.ofSpec : Option (List Nat) → HexResult
  | Option.none => .invalid
  | Option.some v => .ok v

/-- The per-program no-match envelope of `decode_crafting_account`. -/
def accountNoMatchEnvelope : Json :=
  Json.mkObj [("decoded", Json.null), ("program", Json.str "Crafting")]

/-- The `Unable to decode account` fallback envelope built in `main`. -/
def accountFallbackEnvelope : Json :=
  Json.mkObj [("decoded", Json.null), ("error", Json.str "Unable to decode account")]

lemma mem_of_mem_rustTrim {c : Char} {s : List Char} (h : c ∈ rustTrim s) : c ∈ s := by
  unfold rustTrim at h
  rw [List.mem_reverse] at h
  have h1 : c ∈ (s.dropWhile rustIsWhitespace).reverse :=
    (List.dropWhile_sublist _).subset h
  rw [List.mem_reverse] at h1
  exact (List.dropWhile_sublist _).subset h1

lemma mem_of_mem_stripHex0x {c : Char} {s : List Char} (h : c ∈ stripHex0x s) : c ∈ s := by
  match s with
  | [] => exact h
  | [a] => exact h
  | a :: b :: rest =>
    simp only [stripHex0x] at h
    by_cases hab : a = '0' ∧ b = 'x'
    · rw [if_pos hab] at h
      exact List.mem_cons_of_mem _ (List.mem_cons_of_mem _ h)
    · rwa [if_neg hab] at h

lemma utf8_ascii : ∀ (t : List Char), (∀ c ∈ t, c.toNat < 128) →
    utf8 t = t.map Char.toNat
  | [], _ => rfl
  | c :: cs, h => by
    have hc : c.toNat < 128 := h c (List.mem_cons_self c cs)
    have ih := utf8_ascii cs (fun x hx => h x (List.mem_cons_of_mem c hx))
    simp [utf8, utf8Char, hc, ih]

lemma pairLoop_ascii : ∀ (t : List Char), (∀ c ∈ t, c.toNat < 128) →
    pairLoop (t.map Char.toNat) = HexResult.ofSpec (pairBytes t)
  | [], _ => rfl
  | [_], _ => rfl
  | c1 :: c2 :: rest, h => by
    have h1 : c1.toNat < 128 := h c1 (by simp)
    have hrest : ∀ c ∈ rest, c.toNat < 128 := fun c hc => h c (by simp [hc])
    have ih := pairLoop_ascii rest hrest
    have hb1 : isBoundaryByte c1.toNat = true := by
      simp only [isBoundaryByte, Bool.or_eq_true, decide_eq_true_eq]
      exact Or.inl h1
    have hend : pairEndOk (rest.map Char.toNat) = true := by
      cases rest with
      | nil => rfl
      | cons c3 t3 =>
        have h3 : c3.toNat < 128 := hrest c3 (by simp)
        simp only [List.map_cons, pairEndOk, isBoundaryByte, Bool.or_eq_true,
          decide_eq_true_eq]
        exact Or.inl h3
    show pairLoop (c1.toNat :: c2.toNat :: rest.map Char.toNat) = _
    simp only [pairLoop, hb1, hend, Bool.and_self, if_true]
    cases hval : fromStrRadix2 c1.toNat c2.toNat with
    | none => simp [pairBytes, specPairVal, hval, HexResult.ofSpec]
    | some v =>
      rw [ih]
      cases hpb : pairBytes rest with
      | none => simp [pairBytes, specPairVal, hval, hpb, HexResult.ofSpec, HexResult.consByte]
      | some vs => simp [pairBytes, specPairVal, hval, hpb, HexResult.ofSpec, HexResult.consByte]

lemma decode_crafting_account_guard (dec : List Nat → Option CraftingAccount)
    (data : List Nat) :
    (((decode_crafting_account dec data).get "decoded").isSome
      || ((decode_crafting_account dec data).get "kind").isSome) = true := by
  unfold decode_crafting_account
  cases h : dec data with
  | none => simp [Json.get, Json.mkObj, JFields.ofList, JFields.get]
  | some a => cases a <;> simp [Json.get, Json.mkObj, JFields.ofList, JFields.get]

lemma decode_crafting_account_cases (dec : List Nat → Option CraftingAccount)
    (data : List Nat) :
    decode_crafting_account dec data = accountNoMatchEnvelope ∨
    ∃ tag value, decode_crafting_account dec data
      = Json.mkObj [("kind", Json.str tag), ("program", Json.str "Crafting"), ("value", value)] := by
  unfold decode_crafting_account
  cases h : dec data with
  | none => exact Or.inl rfl
  | some a => cases a <;> exact Or.inr ⟨_, _, rfl⟩

lemma runMain_account (dec : List Nat → Option CraftingAccount)
    (parseJson : List Char → Option Json) (args : List (List Char)) (data : List Nat)
    (hlen : ¬ args.length < 2) (hins : isInstructionArg args = false)
    (hhex : hex_to_bytes (args.getD 1 []) = HexResult.ok data) :
    runMain dec parseJson args = RunResult.output (decode_crafting_account dec data) := by
  unfold runMain
  rw [if_neg hlen]
  simp only [hhex, hins, Bool.false_eq_true, if_false,
    decode_crafting_account_guard dec data, if_true]

lemma runMain_invalid (dec : List Nat → Option CraftingAccount)
    (parseJson : List Char → Option Json) (args : List (List Char))
    (hlen : ¬ args.length < 2)
    (hhex : hex_to_bytes (args.getD 1 []) = HexResult.invalid) :
    runMain dec parseJson args = RunResult.invalidHex := by
  unfold runMain
  rw [if_neg hlen]
  simp only [hhex]

lemma runMain_crash_case (dec : List Nat → Option CraftingAccount)
    (parseJson : List Char → Option Json) (args : List (List Char))
    (hlen : ¬ args.length < 2)
    (hhex : hex_to_bytes (args.getD 1 []) = HexResult.crash) :
    runMain dec parseJson args = RunResult.crash := by
  unfold runMain
  rw [if_neg hlen]
  simp only [hhex]

lemma hex_ascii_refines (s : List Char) (h : ∀ c ∈ s, c.toNat < 128) :
    hex_to_bytes s = HexResult.ofSpec (hexToBytesSpec s) := by
  have ht : ∀ c ∈ stripHex0x (rustTrim s), c.toNat < 128 :=
    fun c hc => h c (mem_of_mem_rustTrim (mem_of_mem_stripHex0x hc))
  simp only [hex_to_bytes, hexToBytesSpec]
  rw [utf8_ascii _ ht, List.length_map]
  rcases Nat.mod_two_eq_zero_or_one (stripHex0x (rustTrim s)).length with h2 | h2
  · simp only [h2, ne_eq, if_false]
    simpa using pairLoop_ascii _ ht
  · simp [h2, HexResult.ofSpec]

/-- C1 (amended): in account mode, for any well-formed hex input whose
decoded bytes match no registered discriminator, the program prints the
per-program envelope `{"decoded": null, "program": "Crafting"}` and exits
with code 0 — not the `{"decoded": null, "error": "Unable to decode
account"}` document the claim names, because `get("decoded").is_some()` is
satisfied by the null value, so the fallback branch is dead. -/
theorem C1_no_match_prints_program_envelope
    (dec : List Nat → Option CraftingAccount) (parseJson : List Char → Option Json)
    (a0 hexArg : List Char) (data : List Nat)
    (hhex : hex_to_bytes hexArg = HexResult.ok data) (hdec : dec data = Option.none) :
    runMain dec parseJson [a0, hexArg] = RunResult.output accountNoMatchEnvelope ∧
    (runMain dec parseJson [a0, hexArg]).exitCode = 0 := by
  have hlen : ¬ ([a0, hexArg] : List (List Char)).length < 2 := by simp
  have hins : isInstructionArg [a0, hexArg] = false := by simp [isInstructionArg]
  have h := runMain_account dec parseJson [a0, hexArg] data hlen hins (by simpa using hhex)
  have henv : decode_crafting_account dec data = accountNoMatchEnvelope := by
    unfold decode_crafting_account
    rw [hdec]
    rfl
  rw [h, henv]
  exact ⟨rfl, rfl⟩

/-- C1 witness: the spec's scenario input (16 bytes whose first 8 match no
discriminator of the sample registry). -/
theorem C1_no_match_prints_program_envelope_witness :
    runMain craftingDecSample parseJsonSample
      [ "app".toList, "00000000000000000100000000000000".toList ]
      = RunResult.output accountNoMatchEnvelope ∧
    (runMain craftingDecSample parseJsonSample
      [ "app".toList, "00000000000000000100000000000000".toList ]).exitCode = 0 :=
  C1_no_match_prints_program_envelope craftingDecSample parseJsonSample
    ("app".toList) ("00000000000000000100000000000000".toList)
    [0, 0, 0, 0, 0, 0, 0, 0, 1, 0, 0, 0, 0, 0, 0, 0] (by decide) (by decide)

/-- C1 counterexample: on the claim's own scenario input the printed
envelope is `{"decoded": null, "program": "Crafting"}`, which differs from
the claimed `{"decoded": null, "error": "Unable to decode account"}`. -/
theorem C1_counterexample :
    runMain craftingDecSample parseJsonSample
      [ "app".toList, "00000000000000000100000000000000".toList ]
      = RunResult.output accountNoMatchEnvelope ∧
    accountNoMatchEnvelope ≠ accountFallbackEnvelope := by
  exact ⟨by decide, by decide⟩

/-- C2: the claim fails on the code — `main` validates the raw input text as
hex before the instruction path runs, and structured JSON text (which must
contain a brace and a quote) is never valid hex, so on the claim's own
scenario input the process exits with the invalid-hex code 3 and emits no
envelope. `decode_sage_instruction` itself would produce exactly the claimed
envelope (kind `SageInstruction`, program `Sage-Starbased`, the programId
echoed, the parsed object under `value`), so the hex gate makes the
instruction decoder the source wrote for this input shape unreachable. -/
theorem C2_instruction_json_rejected_by_hex_gate :
    parseJsonSample sageJsonText = Option.some sageObjSample ∧
    sageObjSample.get "programId" = Option.some (Json.str "Sage111") ∧
    decode_sage_instruction parseJsonSample sageJsonText
      = Json.mkObj [("kind", Json.str "SageInstruction"), ("program", Json.str "Sage-Starbased"),
          ("programId", Json.str "Sage111"), ("parsed", Json.bool true), ("value", sageObjSample)] ∧
    hex_to_bytes sageJsonText = HexResult.invalid ∧
    runMain craftingDecSample parseJsonSample
      [ "app".toList, sageJsonText, "--instruction".toList ] = RunResult.invalidHex ∧
    RunResult.invalidHex.exitCode = 3 ∧ RunResult.invalidHex.exitCode ≠ 0 := by
  decide

/-- C3: the claim fails on the code — `hex_to_bytes` takes the byte length
of the trimmed input and slices `&hex[i..i+2]` at byte offsets, so on the
non-ASCII input `aé9` (four UTF-8 bytes, even, with a character boundary
inside the first slice) it panics instead of returning a recoverable
failure; the process aborts with the panic exit code 101. -/
theorem C3_hex_panics_on_non_ascii :
    hex_to_bytes "aé9".toList = HexResult.crash ∧
    runMain craftingDecSample parseJsonSample
      [ "app".toList, "aé9".toList ] = RunResult.crash ∧
    RunResult.crash.exitCode = 101 ∧ RunResult.crash.exitCode ≠ 3 ∧
    RunResult.crash.exitCode ≠ 0 := by
  decide

/-- C4 (amended): a buffer whose first 8 bytes match a registered
discriminator but whose payload fails that variant's deserialiser yields
the same `{"decoded": null, "program": "Crafting"}` envelope as a buffer
matching nothing: the decoder trait's `Option` result collapses
`MalformedPayload` into `NoMatch`, and no account envelope ever carries an
`error` field naming the matched variant. -/
theorem C4_malformed_collapses_to_no_match
    (dec : List Nat → Option CraftingAccount) (data1 data2 : List Nat)
    (h1 : dec data1 = Option.none) (h2 : dec data2 = Option.none) :
    decode_crafting_account dec data1 = decode_crafting_account dec data2 ∧
    ∀ data, (decode_crafting_account dec data).get "error" = Option.none := by
  constructor
  · unfold decode_crafting_account
    rw [h1, h2]
  · intro data
    rcases decode_crafting_account_cases dec data with h | ⟨tag, value, h⟩
    · rw [h]; rfl
    · rw [h]
      simp [Json.mkObj, JFields.ofList, Json.get, JFields.get]

/-- C4 witness: the sample registry's matched-but-malformed buffer and a
no-match buffer produce the same envelope without an `error` field. -/
theorem C4_malformed_collapses_to_no_match_witness :
    decode_crafting_account craftingDecSample [1, 2, 3, 4, 5, 6, 7, 8]
      = decode_crafting_account craftingDecSample [9, 9, 9, 9, 9, 9, 9, 9] ∧
    (decode_crafting_account craftingDecSample [1, 2, 3, 4, 5, 6, 7, 8]).get "error"
      = Option.none :=
  ⟨(C4_malformed_collapses_to_no_match craftingDecSample _ _ (by decide) (by decide)).1,
   (C4_malformed_collapses_to_no_match craftingDecSample
      [1, 2, 3, 4, 5, 6, 7, 8] [9, 9, 9, 9, 9, 9, 9, 9] (by decide) (by decide)).2 _⟩

/-- C4 counterexample: `[1,2,3,4,5,6,7,8]` matches the registered
`CraftableItem` discriminator and its empty payload fails the deserialiser,
yet account decoding returns the very same envelope as the unmatched buffer
`[9,...,9]` and carries no error naming the variant — the claimed
distinguishable `MalformedPayload` output does not exist. -/
theorem C4_counterexample :
    (registryCrafting.find? (fun v => v.disc == [1, 2, 3, 4, 5, 6, 7, 8])).map
        VariantDescriptor.tag = Option.some "CraftableItem" ∧
    sampleDeser (List.drop 8 [1, 2, 3, 4, 5, 6, 7, 8]) = Option.none ∧
    decode_crafting_account craftingDecSample [1, 2, 3, 4, 5, 6, 7, 8]
      = decode_crafting_account craftingDecSample [9, 9, 9, 9, 9, 9, 9, 9] ∧
    (decode_crafting_account craftingDecSample [1, 2, 3, 4, 5, 6, 7, 8]).get "error"
      = Option.none := by
  decide

/-- C5 (amended): on every input whose characters are ASCII — so that the
source's byte-indexed pair slicing coincides with character pairs —
`hex_to_bytes` agrees exactly with the spec's Byte Codec: trim boundary
whitespace, strip an optional lowercase `0x`, fail when the remaining
length is odd or some character pair does not parse as a base-16 byte value
(base-16 integer parsing, which also accepts a redundant leading `+` in a
pair), and otherwise return the pairwise byte values. On non-ASCII input
the function can instead panic (see the counterexample), so the claim's
universal quantification over all inputs fails. -/
theorem C5_ascii_hex_to_bytes_matches_spec (s : List Char)
    (h : ∀ c ∈ s, c.toNat < 128) :
    hex_to_bytes s = HexResult.ofSpec (hexToBytesSpec s) :=
  hex_ascii_refines s h

/-- C5 witness: a concrete ASCII input with whitespace, a `0x` marker and
mixed-case digits. -/
theorem C5_ascii_hex_to_bytes_matches_spec_witness :
    hex_to_bytes "  0x00Ff ".toList = HexResult.ofSpec (hexToBytesSpec "  0x00Ff ".toList) ∧
    hex_to_bytes "  0x00Ff ".toList = HexResult.ok [0, 255] :=
  ⟨C5_ascii_hex_to_bytes_matches_spec ("  0x00Ff ".toList) (by decide), by decide⟩

/-- C5 counterexample: the pair `('€', '€')` does not parse as a base-16
byte value, so the claim says `hexToBytes` fails on `€€`; instead the code
panics (the first two-byte slice of `€€` ends inside the three-byte UTF-8
encoding of `€`), which is not the claimed failure outcome. -/
theorem C5_counterexample :
    specPairVal '€' '€' = Option.none ∧
    rustTrim "€€".toList = "€€".toList ∧
    hex_to_bytes "€€".toList = HexResult.crash ∧
    HexResult.crash ≠ HexResult.invalid := by
  decide

/-- C6: a buffer shorter than 8 bytes yields the per-program no-match
envelope (the spec-modelled registry decoder propagates the missing
discriminator as no-match, and `decode_crafting_account` renders it as
`{"decoded": null, "program": "Crafting"}`), and `extract_discriminator`
returns exactly the first 8 bytes of any buffer at least 8 bytes long. -/
theorem C6_short_no_match_and_extract (reg : List VariantDescriptor)
    (data bigData : List Nat) (hshort : data.length < 8) (hbig : 8 ≤ bigData.length) :
    decode_crafting_account (registryDecode reg) data = accountNoMatchEnvelope ∧
    extract_discriminator bigData = Option.some (bigData.take 8) ∧
    (bigData.take 8).length = 8 := by
  refine ⟨?_, ?_, ?_⟩
  · have hnone : registryDecode reg data = Option.none := by
      unfold registryDecode extract_discriminator
      rw [if_pos hshort]
    unfold decode_crafting_account
    rw [hnone]
    rfl
  · unfold extract_discriminator
    rw [if_neg (by omega)]
  · rw [List.length_take]
    omega

/-- C6 witness: a 1-byte buffer and a 9-byte buffer. -/
theorem C6_short_no_match_and_extract_witness :
    decode_crafting_account craftingDecSample [0] = accountNoMatchEnvelope ∧
    extract_discriminator [1, 2, 3, 4, 5, 6, 7, 8, 9]
      = Option.some [1, 2, 3, 4, 5, 6, 7, 8] ∧
    ((List.take 8 [1, 2, 3, 4, 5, 6, 7, 8, 9]).length = 8) := by
  have h := C6_short_no_match_and_extract registryCrafting [0] [1, 2, 3, 4, 5, 6, 7, 8, 9]
    (by decide) (by decide)
  exact ⟨h.1, h.2.1, h.2.2⟩

/-- C7: every printed envelope comes with exit code 0; a missing hex
argument gives the distinct non-zero usage code 2 with the usage text on
the error stream; an invalid hex input gives the distinct non-zero code 3
with `Invalid hex input` on the error stream, uniformly in the decoder and
parser (no decoding is attempted first). -/
theorem C7_exit_codes (dec : List Nat → Option CraftingAccount)
    (parseJson : List Char → Option Json) (args : List (List Char)) :
    (∀ doc, runMain dec parseJson args = RunResult.output doc →
      (runMain dec parseJson args).exitCode = 0) ∧
    (args.length < 2 →
      runMain dec parseJson args = RunResult.usage ∧
      RunResult.usage.exitCode = 2 ∧ RunResult.usage.exitCode ≠ 0 ∧
      RunResult.usage.stderrLines.head?
        = Option.some "Usage: carbon_crafting_decoder <hex-data> [--instruction]") ∧
    (2 ≤ args.length → hex_to_bytes (args.getD 1 []) = HexResult.invalid →
      runMain dec parseJson args = RunResult.invalidHex ∧
      RunResult.invalidHex.exitCode = 3 ∧ RunResult.invalidHex.exitCode ≠ 0 ∧
      RunResult.invalidHex.exitCode ≠ RunResult.usage.exitCode ∧
      RunResult.invalidHex.stderrLines = ["Invalid hex input"]) := by
  refine ⟨?_, ?_, ?_⟩
  · intro doc h
    rw [h]
    rfl
  · intro hlen
    refine ⟨?_, rfl, by decide, rfl⟩
    unfold runMain
    rw [if_pos hlen]
  · intro hlen hhex
    exact ⟨runMain_invalid _ _ _ (by omega) hhex, rfl, by decide, by decide, rfl⟩

/-- C7 witness: no argument, the spec's `zz` scenario, and a decodable
argument, with their three exit codes. -/
theorem C7_exit_codes_witness :
    (runMain craftingDecSample parseJsonSample [ "app".toList ]).exitCode = 2 ∧
    (runMain craftingDecSample parseJsonSample [ "app".toList, "zz".toList ]).exitCode = 3 ∧
    (runMain craftingDecSample parseJsonSample [ "app".toList, "00".toList ]).exitCode = 0 := by
  refine ⟨?_, ?_, ?_⟩
  · have h := (C7_exit_codes craftingDecSample parseJsonSample [ "app".toList ]).2.1
      (by decide)
    rw [h.1]
    exact h.2.1
  · have h := (C7_exit_codes craftingDecSample parseJsonSample
      [ "app".toList, "zz".toList ]).2.2 (by decide) (by decide)
    rw [h.1]
    exact h.2.1
  · exact (C7_exit_codes craftingDecSample parseJsonSample
      [ "app".toList, "00".toList ]).1 accountNoMatchEnvelope (by decide)

/-- C8: the decode pipeline is deterministic — the run outcome is a pure
function of the argument vector, the registry and the parser (two runs of
the same input and mode coincide), and in account mode the envelope depends
only on the decoded bytes: two hex spellings of the same bytes produce the
same envelope against the same registry. -/
theorem C8_deterministic (dec : List Nat → Option CraftingAccount)
    (parseJson : List Char → Option Json) (args1 args2 : List (List Char))
    (hargs : args1 = args2) (a0 a0' hex1 hex2 : List Char) (data : List Nat)
    (hh1 : hex_to_bytes hex1 = HexResult.ok data)
    (hh2 : hex_to_bytes hex2 = HexResult.ok data) :
    runMain dec parseJson args1 = runMain dec parseJson args2 ∧
    runMain dec parseJson [a0, hex1] = runMain dec parseJson [a0', hex2] := by
  constructor
  · rw [hargs]
  · rw [runMain_account dec parseJson [a0, hex1] data (by simp)
        (by simp [isInstructionArg]) (by simpa using hh1),
      runMain_account dec parseJson [a0', hex2] data (by simp)
        (by simp [isInstructionArg]) (by simpa using hh2)]

/-- C8 witness: the same run twice, and the spellings `00` and `0x00` of
the byte `[0]`. -/
theorem C8_deterministic_witness :
    runMain craftingDecSample parseJsonSample [ "app".toList, "00".toList ]
      = runMain craftingDecSample parseJsonSample [ "app".toList, "00".toList ] ∧
    runMain craftingDecSample parseJsonSample [ "app".toList, "00".toList ]
      = runMain craftingDecSample parseJsonSample [ "b".toList, "0x00".toList ] :=
  C8_deterministic craftingDecSample parseJsonSample _ _ rfl
    ("app".toList) ("b".toList) ("00".toList) ("0x00".toList) [0] (by decide) (by decide)

/-- C9 (amended): hex validation runs on the raw input text before the
instruction path: whenever `hex_to_bytes` reports invalid hex the process
exits with the invalid-hex code, and whenever it panics the process aborts,
in both cases uniformly in the JSON parser — the instruction decoder is
never consulted. (The claim's `exits with the invalid-hex code` clause
fails for the non-ASCII inputs on which `hex_to_bytes` panics instead of
failing; see the counterexample.) -/
theorem C9_hex_gate_precedes_instruction_path
    (dec : List Nat → Option CraftingAccount)
    (parseJson parseJson2 : List Char → Option Json)
    (args : List (List Char)) (hlen : 2 ≤ args.length) :
    (hex_to_bytes (args.getD 1 []) = HexResult.invalid →
      runMain dec parseJson args = RunResult.invalidHex ∧
      runMain dec parseJson2 args = RunResult.invalidHex) ∧
    (hex_to_bytes (args.getD 1 []) = HexResult.crash →
      runMain dec parseJson args = RunResult.crash ∧
      runMain dec parseJson2 args = RunResult.crash) := by
  have hl : ¬ args.length < 2 := by omega
  exact ⟨fun hh => ⟨runMain_invalid _ _ _ hl hh, runMain_invalid _ _ _ hl hh⟩,
    fun hh => ⟨runMain_crash_case _ _ _ hl hh, runMain_crash_case _ _ _ hl hh⟩⟩

/-- C9 witness: instruction-mode argument vectors whose hex fails
(`zz`) and whose hex panics (`aé9`), under two different parsers. -/
theorem C9_hex_gate_precedes_instruction_path_witness :
    runMain craftingDecSample parseJsonSample
      [ "app".toList, "zz".toList, "--instruction".toList ] = RunResult.invalidHex ∧
    runMain craftingDecSample (fun _ => Option.none)
      [ "app".toList, "zz".toList, "--instruction".toList ] = RunResult.invalidHex ∧
    runMain craftingDecSample parseJsonSample
      [ "app".toList, "€€".toList, "--instruction".toList ] = RunResult.crash := by
  refine ⟨?_, ?_, ?_⟩
  · exact ((C9_hex_gate_precedes_instruction_path craftingDecSample parseJsonSample
      (fun _ => Option.none) _ (by decide)).1 (by decide)).1
  · exact ((C9_hex_gate_precedes_instruction_path craftingDecSample parseJsonSample
      (fun _ => Option.none) _ (by decide)).1 (by decide)).2
  · exact ((C9_hex_gate_precedes_instruction_path craftingDecSample parseJsonSample
      (fun _ => Option.none) _ (by decide)).2 (by decide)).1

/-- C9 counterexample: `aé9` in instruction mode is not valid hex, yet the
process does not exit with the invalid-hex code — it panics (the hex gate
crashes before the instruction decoder, but with outcome `crash`, exit
code 101, not `invalidHex`). -/
theorem C9_counterexample :
    runMain craftingDecSample parseJsonSample
      [ "app".toList, "aé9".toList, "--instruction".toList ] = RunResult.crash ∧
    RunResult.crash ≠ RunResult.invalidHex ∧
    RunResult.crash.exitCode ≠ RunResult.invalidHex.exitCode := by
  decide

/-- C10: for every byte buffer, `decode_crafting_account` returns an object
that has a `kind` key (successful decode) or whose `decoded` key is null
(no match), whichever decoder stands behind it; consequently the
`{"decoded": null, "error": "Unable to decode account"}` fallback in `main`
is unreachable for every account-mode input. -/
theorem C10_fallback_unreachable :
    (∀ (dec : List Nat → Option CraftingAccount) (data : List Nat),
      ((decode_crafting_account dec data).get "kind").isSome = true ∨
      (decode_crafting_account dec data).get "decoded" = Option.some Json.null) ∧
    (∀ (dec : List Nat → Option CraftingAccount)
      (parseJson : List Char → Option Json) (args : List (List Char)),
      isInstructionArg args = false →
      runMain dec parseJson args ≠ RunResult.output accountFallbackEnvelope) := by
  constructor
  · intro dec data
    rcases decode_crafting_account_cases dec data with h | ⟨tag, value, h⟩
    · rw [h]
      exact Or.inr rfl
    · rw [h]
      exact Or.inl (by simp [Json.mkObj, JFields.ofList, Json.get, JFields.get])
  · intro dec parseJson args hins heq
    by_cases hlen : args.length < 2
    · unfold runMain at heq
      rw [if_pos hlen] at heq
      exact RunResult.noConfusion heq
    · cases hh : hex_to_bytes (args.getD 1 []) with
      | crash =>
        rw [runMain_crash_case dec parseJson args hlen hh] at heq
        exact RunResult.noConfusion heq
      | invalid =>
        rw [runMain_invalid dec parseJson args hlen hh] at heq
        exact RunResult.noConfusion heq
      | ok data =>
        rw [runMain_account dec parseJson args data hlen hins hh] at heq
        have heq2 : decode_crafting_account dec data = accountFallbackEnvelope := by
          injection heq
        rcases decode_crafting_account_cases dec data with h | ⟨tag, value, h⟩
        · rw [h] at heq2
          exact absurd heq2 (by decide)
        · rw [h] at heq2
          simp [Json.mkObj, JFields.ofList, accountFallbackEnvelope] at heq2
  
/-- C10 witness: the shape disjunction at a concrete buffer, and a concrete
account-mode run that does not print the fallback envelope. -/
theorem C10_fallback_unreachable_witness :
    (((decode_crafting_account craftingDecSample [0]).get "kind").isSome = true ∨
      (decode_crafting_account craftingDecSample [0]).get "decoded"
        = Option.some Json.null) ∧
    runMain craftingDecSample parseJsonSample [ "app".toList, "00".toList ]
      ≠ RunResult.output accountFallbackEnvelope :=
  ⟨C10_fallback_unreachable.1 craftingDecSample [0],
   C10_fallback_unreachable.2 craftingDecSample parseJsonSample
     [ "app".toList, "00".toList ] (by decide)⟩
